import Mathlib

/-!
Shallow embedding of the resumable-upload request builders of the storage
client (`requests.ts`): error handlers, content-type resolution, resumable
session creation, status query and chunk upload.  Byte counts and HTTP
status codes are modelled as `Nat` (the claims only concern non-negative
in-range values); fallible code returns `Except StorageError`.
-/

/-- Modelled from the spec: the error kinds of §7 (the error factory module
`error.ts` is not under src/; only its callers are).  `code` is the error
kind, `message` carries the bucket/path an error names, `serverResponse`
is the raw server reply attached by the error handlers. -/
structure StorageError where
  code : String
  message : String
  serverResponse : Option String
deriving DecidableEq, Repr

def unknownError : StorageError := ⟨"unknown", "", none⟩

def unauthenticated : StorageError := ⟨"unauthenticated", "", none⟩

def unauthorizedApp : StorageError := ⟨"unauthorized-app", "", none⟩

def quotaExceeded (bucket : String) : StorageError := ⟨"quota-exceeded", bucket, none⟩

def unauthorized (path : String) : StorageError := ⟨"unauthorized", path, none⟩

def objectNotFound (path : String) : StorageError := ⟨"object-not-found", path, none⟩

def cannotSliceBlob : StorageError := ⟨"cannot-slice-payload", "", none⟩

def serverFileWrongSize : StorageError := ⟨"server-file-size-mismatch", "", none⟩

/-- JS truthiness of a `string | null | undefined` value: `null`,
`undefined` and the empty string are falsy. -/
def truthyStr : Option String → Bool
  | none => false
  | some s => !s.isEmpty

/-- JS `String.prototype.includes` for a fixed non-empty pattern. -/
def jsIncludes (s pat : String) : Bool := (s.splitOn pat).length != 1

/-- Modelled from the spec: the byte source abstraction (§4.1; `blob.ts` is
not under src/).  Only the size, the content type and whether slicing
succeeds are observable to the request builders, so a blob is its size, its
type string and a flag recording that the underlying medium cannot produce
byte ranges. -/
structure FbsBlob where
  size : Nat
  type : String
  sliceFails : Bool
deriving DecidableEq, Repr

/-- Modelled from the spec: `slice(start, end)` returns a byte-range view,
clamped to `[0, size)` like `Uint8Array.subarray`, or `null` when the
medium cannot produce the range. -/
def FbsBlob.slice (blob : FbsBlob) (startByte endByte : Nat) : Option FbsBlob :=
  if blob.sliceFails then none
  else some ⟨min endByte blob.size - min startByte blob.size, blob.type, false⟩

/-- Modelled from the spec: the static `FbsBlob.getBlob` concatenates string
parts around a blob to assemble a multipart body, and returns `null` when
the underlying medium cannot be sliced/assembled. -/
def FbsBlob.getBlob (pre : String) (blob : FbsBlob) (post : String) : Option FbsBlob :=
  if blob.sliceFails then none
  else some ⟨pre.length + blob.size + post.length, "", false⟩

/-- Modelled from the spec: the destination identifier (`location.ts` is not
under src/); only the bucket and object path are read by this module. -/
structure Location where
  bucket : String
  path : String
deriving DecidableEq, Repr

/-- Modelled from the spec: `bucketOnlyServerUrl` of `location.ts`. -/
def Location.bucketOnlyServerUrl (location : Location) : String :=
  "/b/" ++ location.bucket ++ "/o"

/-- Modelled from the spec: `makeUrl` of `url.ts` joins protocol, host and
the version-prefixed path. -/
def makeUrl (urlPart host protocol : String) : String :=
  protocol ++ "://" ++ host ++ "/v0" ++ urlPart

/-- The storage service configuration read by the request builders. -/
structure FirebaseStorageImpl where
  host : String
  protocol : String
  maxUploadRetryTime : Nat
  maxOperationRetryTime : Nat

/-- Modelled from the spec: object metadata (`metadata.ts` is not under
src/); only the fields the upload path reads or writes are modelled. -/
structure Metadata where
  contentType : Option String
  fullPath : Option String
  size : Option Nat
deriving DecidableEq, Repr

/-- Modelled from the spec: the metadata (de)serializer (§6, "a metadata
(de)serializer independent of the upload protocol"); `fromResourceString`
returns `none` when the response text fails to decode. -/
structure Mappings where
  fromResourceString : String → Option Metadata
  toResourceString : Metadata → String

/-- A network connection's observable response: HTTP status, body text, and
`getResponseHeader`, which may throw (`Except.error`) or return
`string | null`. -/
structure Connection where
  status : Nat
  responseText : String
  getResponseHeader : String → Except Unit (Option String)

def Connection.getStatus (xhr : Connection) : Nat := xhr.status

def Connection.getResponseText (xhr : Connection) : String := xhr.responseText

/-- A request body: a string (serialized metadata) or raw bytes, of which
only the byte count is observable in this embedding. -/
inductive RequestBody where
  | str (s : String)
  | byteCount (n : Nat)
deriving DecidableEq, Repr

/-- An immutable description of one HTTP exchange (`requestinfo.ts`). -/
structure RequestInfo (α : Type) where
  url : String
  method : String
  handler : Connection → String → Except StorageError α
  timeout : Nat
  urlParams : List (String × String)
  headers : List (String × String)
  body : Option RequestBody
  errorHandler : Option (Connection → StorageError → StorageError)
  hasProgressCallback : Bool

/-- Throws the UNKNOWN StorageError if `cndn` is false (`handlerCheck`). -/
def handlerCheck (cndn : Bool) : Except StorageError Unit :=
  if cndn then .ok () else .error unknownError

/-- `metadataHandler`: decode the response text as object metadata, failing
with the unknown error when it does not decode. -/
def metadataHandler (mappings : Mappings) : Connection → String → Except StorageError Metadata :=
  fun _xhr text =>
    match mappings.fromResourceString text with
    | none => .error unknownError
    | some metadata => .ok metadata

/-- `sharedErrorHandler`: maps 401 to unauthorized-app (when the body
carries the App Check message) or unauthenticated, 402 to quota-exceeded
naming the bucket, 403 to unauthorized naming the path, and passes any
other error through; always copies the server response onto the result. -/
def sharedErrorHandler (location : Location) : Connection → StorageError → StorageError :=
  fun xhr err =>
    let newErr :=
      if xhr.getStatus = 401 then
        if jsIncludes xhr.getResponseText "Firebase App Check token is invalid" then
          unauthorizedApp
        else
          unauthenticated
      else if xhr.getStatus = 402 then
        quotaExceeded location.bucket
      else if xhr.getStatus = 403 then
        unauthorized location.path
      else
        err
    { newErr with serverResponse := err.serverResponse }

/-- `objectErrorHandler`: like `sharedErrorHandler`, but a 404 becomes
object-not-found naming the path. -/
def objectErrorHandler (location : Location) : Connection → StorageError → StorageError :=
  fun xhr err =>
    let shared := sharedErrorHandler location
    let newErr :=
      if xhr.getStatus = 404 then objectNotFound location.path
      else shared xhr err
    { newErr with serverResponse := err.serverResponse }

/-- `determineContentType_`: the caller metadata's contentType if truthy,
else the blob's type if truthy, else `application/octet-stream`. -/
def determineContentType_ (metadata : Option Metadata) (blob : Option FbsBlob) : String :=
  let fromMeta : Option String := metadata.bind Metadata.contentType
  if truthyStr fromMeta then fromMeta.getD ""
  else
    let fromBlob : Option String := blob.map FbsBlob.type
    if truthyStr fromBlob then fromBlob.getD ""
    else "application/octet-stream"

/-- `metadataForUpload_`: clone the caller metadata, overwrite `fullPath`
with the destination path and `size` with the blob's size, and fill in a
falsy `contentType` from the blob. -/
def metadataForUpload_ (location : Location) (blob : FbsBlob) (metadata : Option Metadata) :
    Metadata :=
  let metadataClone := metadata.getD ⟨none, none, none⟩
  let metadataClone := { metadataClone with fullPath := some location.path, size := some blob.size }
  if truthyStr metadataClone.contentType then metadataClone
  else { metadataClone with contentType := some (determineContentType_ none (some blob)) }

/-- `multipartUpload`: assemble the multipart body around the blob and build
the POST request; throws cannot-slice-payload when assembly returns null.
The boundary string is passed in (the source draws it from
`Math.random`). -/
def multipartUpload (service : FirebaseStorageImpl) (location : Location) (mappings : Mappings)
    (blob : FbsBlob) (metadata : Option Metadata) (boundary : String) :
    Except StorageError (RequestInfo Metadata) :=
  let urlPart := location.bucketOnlyServerUrl
  let metadata_ := metadataForUpload_ location blob metadata
  let metadataString := mappings.toResourceString metadata_
  let preBlobPart :=
    "--" ++ boundary ++ "\r\n" ++ "Content-Type: application/json; charset=utf-8\r\n\r\n" ++
      metadataString ++ "\r\n--" ++ boundary ++ "\r\n" ++ "Content-Type: " ++
      (metadata_.contentType.getD "") ++ "\r\n\r\n"
  let postBlobPart := "\r\n--" ++ boundary ++ "--"
  match FbsBlob.getBlob preBlobPart blob postBlobPart with
  | none => .error cannotSliceBlob
  | some body =>
    .ok { url := makeUrl urlPart service.host service.protocol
          method := "POST"
          handler := metadataHandler mappings
          timeout := service.maxUploadRetryTime
          urlParams := [("name", metadata_.fullPath.getD "")]
          headers := [("X-Goog-Upload-Protocol", "multipart"),
                      ("Content-Type", "multipart/related; boundary=" ++ boundary)]
          body := some (.byteCount body.size)
          errorHandler := some (sharedErrorHandler location)
          hasProgressCallback := false }

/-- The server-confirmed progress of a resumable upload
(`ResumableUploadStatus`); the constructor enforces nothing. -/
structure ResumableUploadStatus where
  current : Nat
  total : Nat
  finalized : Bool
  metadata : Option Metadata
deriving DecidableEq, Repr

/-- `checkResumeHeader_`: read `X-Goog-Upload-Status`; a thrown header read,
a missing header or a value outside `allowed` (default `["active"]`) is the
unknown protocol-violation error. -/
def checkResumeHeader_ (xhr : Connection) (allowed : Option (List String)) :
    Except StorageError String :=
  match xhr.getResponseHeader "X-Goog-Upload-Status" with
  | .error _ => .error unknownError
  | .ok status =>
    let allowedStatus := allowed.getD ["active"]
    match handlerCheck (truthyStr status && allowedStatus.contains (status.getD "")) with
    | .error e => .error e
    | .ok _ => .ok (status.getD "")

/-- `createResumableUpload`: the POST request that opens a resumable upload
session, carrying the resumable-protocol headers and the serialized target
metadata; its handler demands an `active` status and a string session
URL. -/
def createResumableUpload (service : FirebaseStorageImpl) (location : Location)
    (mappings : Mappings) (blob : FbsBlob) (metadata : Option Metadata) : RequestInfo String :=
  let urlPart := location.bucketOnlyServerUrl
  let metadataForUpload := metadataForUpload_ location blob metadata
  { url := makeUrl urlPart service.host service.protocol
    method := "POST"
    handler := fun xhr _text =>
      match checkResumeHeader_ xhr none with
      | .error e => .error e
      | .ok _ =>
        match xhr.getResponseHeader "X-Goog-Upload-URL" with
        | .error _ => .error unknownError
        | .ok url =>
          match handlerCheck url.isSome with
          | .error e => .error e
          | .ok _ => .ok (url.getD "")
    timeout := service.maxUploadRetryTime
    urlParams := [("name", metadataForUpload.fullPath.getD "")]
    headers := [("X-Goog-Upload-Protocol", "resumable"),
                ("X-Goog-Upload-Command", "start"),
                ("X-Goog-Upload-Header-Content-Length", toString blob.size),
                ("X-Goog-Upload-Header-Content-Type", metadataForUpload.contentType.getD ""),
                ("Content-Type", "application/json; charset=utf-8")]
    body := some (.str (mappings.toResourceString metadataForUpload))
    errorHandler := some (sharedErrorHandler location)
    hasProgressCallback := false }

/-- Modelled from the spec: the JS `Number()` builtin as used on the
size-received header, restricted to non-negative decimal integers; any
other string is NaN (`none`). -/
def jsParseNat (s : String) : Option Nat :=
  if s.data ≠ [] ∧ s.data.all (fun c => 48 ≤ c.toNat && c.toNat ≤ 57) then
    some (s.data.foldl (fun n c => 10 * n + (c.toNat - 48)) 0)
  else none

/-- `getResumableUploadStatus`: the query request; its handler accepts
`active` or `final`, requires a numeric `X-Goog-Upload-Size-Received`
header, and reports that size against the blob's size with no metadata. -/
def getResumableUploadStatus (service : FirebaseStorageImpl) (location : Location)
    (url : String) (blob : FbsBlob) : RequestInfo ResumableUploadStatus :=
  { url := url
    method := "POST"
    handler := fun xhr _text =>
      match checkResumeHeader_ xhr (some ["active", "final"]) with
      | .error e => .error e
      | .ok status =>
        match xhr.getResponseHeader "X-Goog-Upload-Size-Received" with
        | .error _ => .error unknownError
        | .ok sizeString =>
          match handlerCheck (truthyStr sizeString) with
          | .error e => .error e
          | .ok _ =>
            match jsParseNat (sizeString.getD "") with
            | none => .error unknownError
            | some size => .ok ⟨size, blob.size, status = "final", none⟩
    timeout := service.maxUploadRetryTime
    urlParams := []
    headers := [("X-Goog-Upload-Command", "query")]
    body := none
    errorHandler := some (sharedErrorHandler location)
    hasProgressCallback := false }

/-- Any uploads via the resumable upload API must transfer a number of
bytes that is a multiple of this number. -/
def RESUMABLE_UPLOAD_CHUNK_SIZE : Nat := 256 * 1024

/-- `continueResumableUpload`: build one chunk-upload request.  Throws
server-file-size-mismatch when the prior status total disagrees with the
blob size, and cannot-slice-payload when the blob cannot be sliced; the
handler accepts `active`/`final`, advances `current` by the bytes sent,
and decodes metadata exactly on `final`. -/
def continueResumableUpload (location : Location) (service : FirebaseStorageImpl)
    (url : String) (blob : FbsBlob) (chunkSize : Nat) (mappings : Mappings)
    (status : Option ResumableUploadStatus) (hasProgressCallback : Bool) :
    Except StorageError (RequestInfo ResumableUploadStatus) :=
  let status_ : ResumableUploadStatus :=
    match status with
    | some s => ⟨s.current, s.total, false, none⟩
    | none => ⟨0, blob.size, false, none⟩
  if blob.size ≠ status_.total then .error serverFileWrongSize
  else
    let bytesLeft := status_.total - status_.current
    let bytesToUpload := if chunkSize > 0 then min bytesLeft chunkSize else bytesLeft
    let startByte := status_.current
    let endByte := startByte + bytesToUpload
    let uploadCommand := if bytesToUpload = bytesLeft then "upload, finalize" else "upload"
    match blob.slice startByte endByte with
    | none => .error cannotSliceBlob
    | some body =>
      .ok { url := url
            method := "POST"
            handler := fun xhr text =>
              match checkResumeHeader_ xhr (some ["active", "final"]) with
              | .error e => .error e
              | .ok uploadStatus =>
                let newCurrent := status_.current + bytesToUpload
                let size := blob.size
                match
                  (if uploadStatus = "final" then
                    match metadataHandler mappings xhr text with
                    | .error e => .error e
                    | .ok m => .ok (some m)
                  else .ok none : Except StorageError (Option Metadata)) with
                | .error e => .error e
                | .ok metadata =>
                  .ok ⟨newCurrent, size, uploadStatus = "final", metadata⟩
            timeout := service.maxUploadRetryTime
            urlParams := []
            headers := [("X-Goog-Upload-Command", uploadCommand),
                        ("X-Goog-Upload-Offset", toString status_.current)]
            body := some (.byteCount body.size)
            errorHandler := some (sharedErrorHandler location)
            hasProgressCallback := hasProgressCallback }

/-- The observable shape of one chunk request: its offset header, its
command header, and the number of payload bytes. -/
structure ChunkRecord where
  offsetHeader : Option String
  commandHeader : Option String
  bodyBytes : Nat
deriving DecidableEq, Repr

def RequestInfo.bodyBytes {α : Type} (ri : RequestInfo α) : Nat :=
  match ri.body with
  | some (.byteCount n) => n
  | _ => 0

/-- A simulated server reply to a chunk request: HTTP 200 with the given
`X-Goog-Upload-Status` header value. -/
def chunkResponse (uploadStatus : String) : Connection :=
  { status := 200
    responseText := ""
    getResponseHeader := fun name =>
      if name = "X-Goog-Upload-Status" then .ok (some uploadStatus) else .ok none }

/-- Drive the chunk loop of the state machine (§4.3 transition 3): build a
chunk request with `continueResumableUpload`, feed its handler an `active`
reply (or `final` once the request carries the finalize command), and loop
until the status is finalized, recording each request. -/
def driveUpload (location : Location) (service : FirebaseStorageImpl) (url : String)
    (blob : FbsBlob) (chunkSize : Nat) (mappings : Mappings) (responseText : String) :
    Nat → Option ResumableUploadStatus →
    Except StorageError (List ChunkRecord × ResumableUploadStatus)
  | 0, _ => .error unknownError
  | fuel + 1, status =>
    match continueResumableUpload location service url blob chunkSize mappings status false with
    | .error e => .error e
    | .ok ri =>
      let cmd := ri.headers.lookup "X-Goog-Upload-Command"
      let record : ChunkRecord := ⟨ri.headers.lookup "X-Goog-Upload-Offset", cmd, ri.bodyBytes⟩
      let reply := chunkResponse (if cmd = some "upload, finalize" then "final" else "active")
      match ri.handler reply responseText with
      | .error e => .error e
      | .ok status' =>
        if status'.finalized then .ok ([record], status')
        else
          match driveUpload location service url blob chunkSize mappings responseText fuel
              (some status') with
          | .error e => .error e
          | .ok (records, last) => .ok (record :: records, last)

/-- A connection whose header reads succeed and draw from a fixed list. -/
def connWithHeaders (status : Nat) (text : String) (hs : List (String × String)) : Connection :=
  ⟨status, text, fun name => .ok (hs.lookup name)⟩

/-- A sample metadata decoder/serializer used to evaluate the handlers on
concrete inputs. -/
def sampleMappings : Mappings :=
  ⟨fun _ => some ⟨some "text/plain", some "objects/a.txt", some 614400⟩, fun _ => "resource"⟩

def sampleService : FirebaseStorageImpl := ⟨"storage.example.com", "https", 600000, 120000⟩

def sampleLocation : Location := ⟨"bucket-1", "objects/a.txt"⟩

def sampleError : StorageError := ⟨"original-error", "", some "server-body"⟩

def appCheck401Connection : Connection :=
  connWithHeaders 401 "error: Firebase App Check token is invalid." []

def notFoundConnection : Connection := connWithHeaders 404 "missing" []

def activeChunkConnection : Connection :=
  connWithHeaders 200 "" [("X-Goog-Upload-Status", "active")]

def finalQueryConnection : Connection :=
  connWithHeaders 200 ""
    [("X-Goog-Upload-Status", "final"), ("X-Goog-Upload-Size-Received", "100")]

def startOkConnection : Connection :=
  connWithHeaders 200 ""
    [("X-Goog-Upload-Status", "active"), ("X-Goog-Upload-URL", "session-url")]

/-- The UploadStatus invariant stated by the spec (§3): `0 ≤ current ≤
total`, and `metadata` is non-null if and only if `finalized` is true. -/
def statusInvariant (st : ResumableUploadStatus) : Prop :=
  st.current ≤ st.total ∧ (st.metadata ≠ none ↔ st.finalized = true)

/-- The content-type resolution rule in the claim's (amended) wording: the
caller metadata's contentType when present and non-empty, else the blob's
own type when non-empty, else the literal default. -/
def specResolvedContentType (metadata : Option Metadata) (blob : FbsBlob) : String :=
  match metadata.bind Metadata.contentType with
  | some c =>
    if c ≠ "" then c
    else if blob.type ≠ "" then blob.type else "application/octet-stream"
  | none => if blob.type ≠ "" then blob.type else "application/octet-stream"

theorem metadataForUpload_contentType (location : Location) (blob : FbsBlob)
    (metadata : Option Metadata) :
    (metadataForUpload_ location blob metadata).contentType =
      some (determineContentType_ metadata (some blob)) := by
  cases metadata with
  | none => simp [metadataForUpload_, determineContentType_, truthyStr]
  | some md =>
    cases hct : md.contentType with
    | none => simp [metadataForUpload_, determineContentType_, truthyStr, hct]
    | some c =>
      cases hc : c.isEmpty <;>
        simp [metadataForUpload_, determineContentType_, truthyStr, hct, hc]

/-- **C1** — Every chunk request built by `continueResumableUpload` from a
prior confirmed offset `current ≤ total` on a blob of size `total` uploads
exactly `total - current` bytes when the configured chunk size is zero and
`min (total - current) chunkSize` bytes otherwise, carries
`X-Goog-Upload-Offset` equal to `current`, and carries
`X-Goog-Upload-Command` equal to `"upload, finalize"` exactly when
`current` plus the bytes uploaded reaches `total`, else `"upload"`. -/
theorem continueResumableUpload_chunk_request_spec
    (location : Location) (service : FirebaseStorageImpl) (url : String)
    (blob : FbsBlob) (chunkSize : Nat) (mappings : Mappings)
    (st : ResumableUploadStatus)
    (hsize : blob.size = st.total) (hcur : st.current ≤ st.total)
    (hslice : blob.sliceFails = false) :
    (continueResumableUpload location service url blob chunkSize mappings (some st) false).map
      (fun ri => (ri.headers.lookup "X-Goog-Upload-Offset",
                  ri.bodyBytes,
                  ri.headers.lookup "X-Goog-Upload-Command")) =
    .ok (some (toString st.current),
         (if chunkSize = 0 then st.total - st.current else min (st.total - st.current) chunkSize),
         some (if st.current + (if chunkSize = 0 then st.total - st.current
                                else min (st.total - st.current) chunkSize) = st.total
               then "upload, finalize" else "upload")) := by
  obtain ⟨c, t, f, m⟩ := st
  obtain ⟨n, ty, sf⟩ := blob
  simp only [FbsBlob.size] at hsize
  simp only at hcur
  subst hsize
  subst hslice
  unfold continueResumableUpload FbsBlob.slice
  simp only [ne_eq, not_true_eq_false, if_false, Bool.false_eq_true, ite_self, if_neg]
  simp only [Except.map, RequestInfo.bodyBytes, List.lookup, Except.ok.injEq, Prod.mk.injEq]
  refine ⟨rfl, ?_, ?_⟩
  · by_cases h0 : chunkSize = 0
    · simp [h0, hcur]
    · simp [h0, hcur, Nat.pos_of_ne_zero h0]
      omega
  · by_cases h0 : chunkSize = 0
    · simp [h0, hcur, show c + (n - c) = n from by omega]
    · simp [h0, hcur, Nat.pos_of_ne_zero h0]
      simp only [show (n ≤ chunkSize + c) ↔ (c + (n - c) ⊓ chunkSize = n) from by omega]

theorem continueResumableUpload_chunk_request_spec_witness :
    (continueResumableUpload sampleLocation sampleService "session" ⟨1000, "", false⟩ 300
        sampleMappings (some ⟨400, 1000, false, none⟩) false).map
      (fun ri => (ri.headers.lookup "X-Goog-Upload-Offset",
                  ri.bodyBytes,
                  ri.headers.lookup "X-Goog-Upload-Command")) =
    .ok (some (toString 400),
         (if (300 : Nat) = 0 then 1000 - 400 else min (1000 - 400) 300),
         some (if 400 + (if (300 : Nat) = 0 then 1000 - 400 else min (1000 - 400) 300) = 1000
               then "upload, finalize" else "upload")) :=
  continueResumableUpload_chunk_request_spec sampleLocation sampleService "session"
    ⟨1000, "", false⟩ 300 sampleMappings ⟨400, 1000, false, none⟩ rfl (by decide) rfl

/-- **C2** — When the prior status total disagrees with the blob's size,
`continueResumableUpload` fails with the server-file-size-mismatch error;
no request descriptor is returned and the result is the same even for a
blob whose slice operation would fail, so the byte source is never
sliced. -/
theorem continueResumableUpload_size_mismatch
    (location : Location) (service : FirebaseStorageImpl) (url : String)
    (blob : FbsBlob) (chunkSize : Nat) (mappings : Mappings)
    (st : ResumableUploadStatus) (hasProgressCallback : Bool)
    (hsz : blob.size ≠ st.total) :
    continueResumableUpload location service url blob chunkSize mappings (some st)
        hasProgressCallback = .error serverFileWrongSize := by
  unfold continueResumableUpload
  simp [hsz]

theorem continueResumableUpload_size_mismatch_witness :
    continueResumableUpload sampleLocation sampleService "session" ⟨900, "", true⟩ 262144
        sampleMappings (some ⟨0, 1000, false, none⟩) false = .error serverFileWrongSize :=
  continueResumableUpload_size_mismatch sampleLocation sampleService "session" ⟨900, "", true⟩
    262144 sampleMappings ⟨0, 1000, false, none⟩ false (by decide)

/-- **C4** — For a byte source of size 0 with no prior status, the single
chunk request carries command `"upload, finalize"`, offset `"0"`, and a
zero-byte body. -/
theorem continueResumableUpload_zero_byte
    (location : Location) (service : FirebaseStorageImpl) (url : String)
    (blob : FbsBlob) (chunkSize : Nat) (mappings : Mappings)
    (hsz : blob.size = 0) (hslice : blob.sliceFails = false) :
    (continueResumableUpload location service url blob chunkSize mappings none false).map
      (fun ri => (ri.headers.lookup "X-Goog-Upload-Command",
                  ri.headers.lookup "X-Goog-Upload-Offset",
                  ri.body)) =
    .ok (some "upload, finalize", some "0", some (.byteCount 0)) := by
  obtain ⟨n, ty, sf⟩ := blob
  simp only [FbsBlob.size] at hsz
  subst hsz
  subst hslice
  unfold continueResumableUpload FbsBlob.slice
  simp [List.lookup]
  rfl

theorem continueResumableUpload_zero_byte_witness :
    (continueResumableUpload sampleLocation sampleService "session" ⟨0, "", false⟩ 262144
        sampleMappings none false).map
      (fun ri => (ri.headers.lookup "X-Goog-Upload-Command",
                  ri.headers.lookup "X-Goog-Upload-Offset",
                  ri.body)) =
    .ok (some "upload, finalize", some "0", some (.byteCount 0)) :=
  continueResumableUpload_zero_byte sampleLocation sampleService "session" ⟨0, "", false⟩ 262144
    sampleMappings rfl rfl

/-- **C7** — When the byte source cannot be sliced, the chunk upload fails
with the cannot-slice-payload error instead of returning a request, and so
does the multipart upload when its body assembly returns null. -/
theorem slice_failure_aborts_upload
    (location : Location) (service : FirebaseStorageImpl) (url : String)
    (blob : FbsBlob) (chunkSize : Nat) (mappings : Mappings)
    (st : ResumableUploadStatus) (metadata : Option Metadata) (boundary : String)
    (hfail : blob.sliceFails = true) (hsz : blob.size = st.total) :
    continueResumableUpload location service url blob chunkSize mappings (some st) false =
        .error cannotSliceBlob ∧
    multipartUpload service location mappings blob metadata boundary =
        .error cannotSliceBlob := by
  constructor
  · unfold continueResumableUpload FbsBlob.slice
    simp [hsz, hfail]
  · unfold multipartUpload FbsBlob.getBlob
    simp [hfail]

theorem slice_failure_aborts_upload_witness :
    continueResumableUpload sampleLocation sampleService "session" ⟨1000, "", true⟩ 262144
        sampleMappings (some ⟨0, 1000, false, none⟩) false = .error cannotSliceBlob ∧
    multipartUpload sampleService sampleLocation sampleMappings ⟨1000, "", true⟩ none "bnd" =
        .error cannotSliceBlob :=
  slice_failure_aborts_upload sampleLocation sampleService "session" ⟨1000, "", true⟩ 262144
    sampleMappings ⟨0, 1000, false, none⟩ none "bnd" rfl rfl

/-- **C3 (counterexample)** — Uploading a 614400-byte source with chunk
size 262144 produces three chunk requests of 262144, 262144 and 90112
bytes: the final chunk carries 90112 bytes, not the 89216 the claim
states. -/
theorem upload_600KiB_scenario_counterexample :
    (driveUpload sampleLocation sampleService "session" ⟨614400, "", false⟩ 262144 sampleMappings
        "resource-text" 5 none).map (fun p => p.1.map ChunkRecord.bodyBytes) =
      .ok [262144, 262144, 90112] ∧ (90112 : Nat) ≠ 89216 := by
  constructor
  · rfl
  · decide

/-- **C3 (amended)** — Iterating `continueResumableUpload` over a
614400-byte source with chunk size 262144 produces exactly three chunk
requests with offsets 0, 262144 and 524288, the last carrying command
`"upload, finalize"` and 90112 bytes, and the final status has
`current = 614400`, `total = 614400` and `finalized = true`. -/
theorem upload_600KiB_scenario :
    driveUpload sampleLocation sampleService "session" ⟨614400, "", false⟩ 262144 sampleMappings
        "resource-text" 5 none =
      .ok ([⟨some "0", some "upload", 262144⟩,
            ⟨some "262144", some "upload", 262144⟩,
            ⟨some "524288", some "upload, finalize", 90112⟩],
           ⟨614400, 614400, true, some ⟨some "text/plain", some "objects/a.txt", some 614400⟩⟩) :=
  rfl

/-- **C6** — The shared error handler maps 401 to unauthorized-app exactly
when the response body contains the App Check invalid-token message and to
unauthenticated otherwise, 402 to quota-exceeded naming the bucket, 403 to
unauthorized naming the path, and passes any other error through
unchanged; only the object-level handler maps 404 to object-not-found, and
it agrees with the shared handler elsewhere. -/
theorem error_handlers_status_mapping (location : Location) (xhr : Connection)
    (err : StorageError) :
    (xhr.getStatus = 401 →
      sharedErrorHandler location xhr err =
        if jsIncludes xhr.getResponseText "Firebase App Check token is invalid" then
          { unauthorizedApp with serverResponse := err.serverResponse }
        else { unauthenticated with serverResponse := err.serverResponse }) ∧
    (xhr.getStatus = 402 →
      sharedErrorHandler location xhr err =
        { quotaExceeded location.bucket with serverResponse := err.serverResponse }) ∧
    (xhr.getStatus = 403 →
      sharedErrorHandler location xhr err =
        { unauthorized location.path with serverResponse := err.serverResponse }) ∧
    (xhr.getStatus ≠ 401 → xhr.getStatus ≠ 402 → xhr.getStatus ≠ 403 →
      sharedErrorHandler location xhr err = err) ∧
    (xhr.getStatus = 404 →
      objectErrorHandler location xhr err =
        { objectNotFound location.path with serverResponse := err.serverResponse }) ∧
    (xhr.getStatus ≠ 404 →
      objectErrorHandler location xhr err = sharedErrorHandler location xhr err) := by
  refine ⟨?_, ?_, ?_, ?_, ?_, ?_⟩
  · intro h
    unfold sharedErrorHandler
    simp only [h, reduceIte]
    split <;> rfl
  · intro h
    unfold sharedErrorHandler
    simp [h]
  · intro h
    unfold sharedErrorHandler
    simp [h]
  · intro h1 h2 h3
    unfold sharedErrorHandler
    simp [h1, h2, h3]
  · intro h
    unfold objectErrorHandler
    simp [h]
  · intro h
    unfold objectErrorHandler
    simp only [h, if_neg h]
    rfl

theorem error_handlers_status_mapping_witness :
    (sharedErrorHandler sampleLocation appCheck401Connection sampleError =
      if jsIncludes appCheck401Connection.getResponseText
          "Firebase App Check token is invalid" then
        { unauthorizedApp with serverResponse := sampleError.serverResponse }
      else { unauthenticated with serverResponse := sampleError.serverResponse }) ∧
    (objectErrorHandler sampleLocation notFoundConnection sampleError =
      { objectNotFound sampleLocation.path with serverResponse := sampleError.serverResponse }) :=
  ⟨(error_handlers_status_mapping sampleLocation appCheck401Connection sampleError).1 rfl,
   (error_handlers_status_mapping sampleLocation notFoundConnection
      sampleError).2.2.2.2.1 rfl⟩

/-- **C8** — The request built by `createResumableUpload` is a POST whose
headers set the resumable protocol, the start command, the blob's size as
the declared content length and the resolved content type, and whose body
is the serialized target-object metadata. -/
theorem createResumableUpload_request_shape (service : FirebaseStorageImpl)
    (location : Location) (mappings : Mappings) (blob : FbsBlob)
    (metadata : Option Metadata) :
    (createResumableUpload service location mappings blob metadata).method = "POST" ∧
    (createResumableUpload service location mappings blob metadata).headers.lookup
        "X-Goog-Upload-Protocol" = some "resumable" ∧
    (createResumableUpload service location mappings blob metadata).headers.lookup
        "X-Goog-Upload-Command" = some "start" ∧
    (createResumableUpload service location mappings blob metadata).headers.lookup
        "X-Goog-Upload-Header-Content-Length" = some (toString blob.size) ∧
    (createResumableUpload service location mappings blob metadata).headers.lookup
        "X-Goog-Upload-Header-Content-Type" =
      some (determineContentType_ metadata (some blob)) ∧
    (createResumableUpload service location mappings blob metadata).body =
      some (.str (mappings.toResourceString (metadataForUpload_ location blob metadata))) := by
  refine ⟨rfl, rfl, rfl, rfl, ?_, rfl⟩
  show some ((metadataForUpload_ location blob metadata).contentType.getD "") = _
  rw [metadataForUpload_contentType]
  rfl

/-- **C10 (counterexample)** — With caller metadata whose `contentType` is
present but the empty string, `metadataForUpload_` records the blob's type
rather than the caller's value: mere presence does not win. -/
theorem contentType_present_empty_counterexample :
    (metadataForUpload_ sampleLocation ⟨5, "text/plain", false⟩
        (some ⟨some "", none, none⟩)).contentType = some "text/plain" ∧
    (some "text/plain" : Option String) ≠ some "" := by
  constructor
  · rfl
  · decide

theorem isEmpty_eq_false_iff (s : String) : (s.isEmpty = false) ↔ s ≠ "" := by
  constructor
  · intro h he
    subst he
    exact absurd h (by decide)
  · intro h
    cases hb : s.isEmpty
    · rfl
    · exact absurd ((String.isEmpty_iff s).mp hb) h

/-- **C10 (amended)** — The upload metadata's content type is the caller
metadata's `contentType` if present and non-empty, else the blob's type if
non-empty, else `"application/octet-stream"`; `metadataForUpload_` always
overwrites `fullPath` with the destination path and `size` with the blob's
size. -/
theorem metadataForUpload_fields (location : Location) (blob : FbsBlob)
    (metadata : Option Metadata) :
    (metadataForUpload_ location blob metadata).fullPath = some location.path ∧
    (metadataForUpload_ location blob metadata).size = some blob.size ∧
    (metadataForUpload_ location blob metadata).contentType =
      some (specResolvedContentType metadata blob) := by
  refine ⟨?_, ?_, ?_⟩
  · unfold metadataForUpload_
    by_cases h : truthyStr (metadata.getD ⟨none, none, none⟩).contentType <;> simp [h]
  · unfold metadataForUpload_
    by_cases h : truthyStr (metadata.getD ⟨none, none, none⟩).contentType <;> simp [h]
  · rw [metadataForUpload_contentType]
    cases metadata with
    | none =>
      cases hb : blob.type.isEmpty <;>
        simp_all [determineContentType_, specResolvedContentType, truthyStr,
          String.isEmpty_iff, isEmpty_eq_false_iff]
    | some md =>
      cases hct : md.contentType with
      | none =>
        cases hb : blob.type.isEmpty <;>
          simp_all [determineContentType_, specResolvedContentType, truthyStr,
            String.isEmpty_iff, isEmpty_eq_false_iff]
      | some c =>
        cases hc : c.isEmpty <;> cases hb : blob.type.isEmpty <;>
          simp_all [determineContentType_, specResolvedContentType, truthyStr,
            String.isEmpty_iff, isEmpty_eq_false_iff]

/-- **C9 (counterexample)** — The query-status handler, on a `final`
response reporting 100 of 100 bytes received, produces a status with
`finalized = true` but `metadata = none`, violating the claimed invariant
that metadata is non-null exactly when finalized. -/
theorem status_invariant_counterexample :
    (getResumableUploadStatus sampleService sampleLocation "session" ⟨100, "", false⟩).handler
        finalQueryConnection "" = .ok ⟨100, 100, true, none⟩ ∧
    ¬ statusInvariant ⟨100, 100, true, none⟩ := by
  constructor
  · rfl
  · unfold statusInvariant
    decide

/-- **C9 (amended)** — A status produced by the chunk-upload response
handler from a prior status with `current ≤ total` satisfies
`0 ≤ current ≤ total` with metadata non-null exactly when finalized; the
query-status handler and direct construction do not enforce the invariant:
the query handler's status always carries `metadata = none`, even when
finalized, and the `ResumableUploadStatus` constructor accepts any field
values. -/
theorem chunk_handler_status_invariant
    (location : Location) (service : FirebaseStorageImpl) (url : String) (blob : FbsBlob)
    (chunkSize : Nat) (mappings : Mappings) (st : ResumableUploadStatus)
    (hasProgressCallback : Bool) (xhr : Connection) (text : String)
    (st' : ResumableUploadStatus) (q : ResumableUploadStatus)
    (hcur : st.current ≤ st.total) :
    ((continueResumableUpload location service url blob chunkSize mappings (some st)
        hasProgressCallback).bind (fun ri => ri.handler xhr text) = .ok st' →
      statusInvariant st') ∧
    ((getResumableUploadStatus service location url blob).handler xhr text = .ok q →
      q.metadata = none) := by
  constructor
  · intro h
    simp only [continueResumableUpload] at h
    by_cases hsz : blob.size = st.total
    case neg =>
      rw [if_pos (by simpa using hsz)] at h
      simp [Except.bind] at h
    rw [if_neg (by simpa using hsz)] at h
    split at h
    · simp [Except.bind] at h
    · simp only [Except.bind] at h
      cases hcr : checkResumeHeader_ xhr (some ["active", "final"]) with
      | error e => rw [hcr] at h; simp at h
      | ok uploadStatus =>
        rw [hcr] at h
        simp only [] at h
        by_cases hus : uploadStatus = "final"
        · rw [if_pos hus] at h
          cases hmd : metadataHandler mappings xhr text with
          | error e => rw [hmd] at h; simp at h
          | ok m =>
            rw [hmd] at h
            simp only [Except.ok.injEq] at h
            subst h
            unfold statusInvariant
            refine ⟨?_, ?_⟩
            · simp only
              rw [hsz]
              split <;> omega
            · simp [hus]
        · rw [if_neg hus] at h
          simp only [Except.ok.injEq] at h
          subst h
          unfold statusInvariant
          refine ⟨?_, ?_⟩
          · simp only
            rw [hsz]
            split <;> omega
          · simp [hus]
  · intro hq
    unfold getResumableUploadStatus at hq
    simp only at hq
    split at hq
    · simp at hq
    · split at hq
      · simp at hq
      · split at hq
        · simp at hq
        · split at hq
          · simp at hq
          · simp only [Except.ok.injEq] at hq
            subst hq
            rfl

theorem chunk_handler_status_invariant_witness :
    statusInvariant ⟨262144, 614400, false, none⟩ :=
  (chunk_handler_status_invariant sampleLocation sampleService "session" ⟨614400, "", false⟩
      262144 sampleMappings ⟨0, 614400, false, none⟩ false activeChunkConnection "resource-text"
      ⟨262144, 614400, false, none⟩ ⟨100, 100, true, none⟩ (by decide)).1 rfl

/-- **C5** — `checkResumeHeader_` succeeds only when the
`X-Goog-Upload-Status` header is present and in the allowed set (just
`"active"` by default, as used by the start-session handler; `"active"` or
`"final"` for chunk/query responses); every failure, including a missing
header, is the unknown protocol-violation error, with no silent default;
and the start handler succeeds exactly when the status is `"active"` and
`X-Goog-Upload-URL` is a string, failing with the unknown error
otherwise. -/
theorem resume_header_and_start_handler_checks
    (xhr : Connection) (text : String) (service : FirebaseStorageImpl) (location : Location)
    (mappings : Mappings) (blob : FbsBlob) (metadata : Option Metadata) :
    (∀ s, checkResumeHeader_ xhr none = .ok s ↔
        xhr.getResponseHeader "X-Goog-Upload-Status" = .ok (some s) ∧ s = "active") ∧
    (∀ s, checkResumeHeader_ xhr (some ["active", "final"]) = .ok s ↔
        xhr.getResponseHeader "X-Goog-Upload-Status" = .ok (some s) ∧
          (s = "active" ∨ s = "final")) ∧
    (∀ allowed e, checkResumeHeader_ xhr allowed = .error e → e = unknownError) ∧
    (∀ u, (createResumableUpload service location mappings blob metadata).handler xhr text =
        .ok u ↔
      xhr.getResponseHeader "X-Goog-Upload-Status" = .ok (some "active") ∧
        xhr.getResponseHeader "X-Goog-Upload-URL" = .ok (some u)) ∧
    (∀ e, (createResumableUpload service location mappings blob metadata).handler xhr text =
        .error e → e = unknownError) := by
  have hok : ∀ (allowed : Option (List String)) s, checkResumeHeader_ xhr allowed = .ok s ↔
      xhr.getResponseHeader "X-Goog-Upload-Status" = .ok (some s) ∧
        truthyStr (some s) = true ∧ ((allowed.getD ["active"]).contains s) = true := by
    intro allowed s
    unfold checkResumeHeader_ handlerCheck
    cases hh : xhr.getResponseHeader "X-Goog-Upload-Status" with
    | error u => simp
    | ok status =>
      cases status with
      | none => simp [truthyStr]
      | some v =>
        simp only [Option.getD_some]
        by_cases hcnd : (truthyStr (some v) && (allowed.getD ["active"]).contains v) = true
        · rw [if_pos hcnd]
          simp only [Option.getD_some, Except.ok.injEq, Option.some.injEq]
          constructor
          · rintro rfl
            rcases Bool.and_eq_true _ _ |>.mp hcnd with ⟨h1, h2⟩
            exact ⟨rfl, h1, h2⟩
          · rintro ⟨rfl, _, _⟩
            rfl
        · rw [if_neg hcnd]
          simp only []
          constructor
          · intro hcon
            cases hcon
          · rintro ⟨h1, h2, h3⟩
            injection h1 with h1
            injection h1 with h1
            subst h1
            exact absurd (Bool.and_eq_true _ _ |>.mpr ⟨h2, h3⟩) hcnd
  have herr : ∀ (allowed : Option (List String)) e,
      checkResumeHeader_ xhr allowed = .error e → e = unknownError := by
    intro allowed e h
    unfold checkResumeHeader_ handlerCheck at h
    simp only [] at h
    split at h
    · injection h with h1
      exact h1.symm
    · split at h
      · rename_i heq
        split at heq
        · cases heq
        · injection heq with heq
          injection h with h1
          rw [← h1, ← heq]
      · cases h
  refine ⟨?_, ?_, herr, ?_, ?_⟩
  · intro s
    rw [hok none s]
    constructor
    · rintro ⟨h1, _, h3⟩
      refine ⟨h1, ?_⟩
      simpa using h3
    · rintro ⟨h1, rfl⟩
      exact ⟨h1, by decide, by decide⟩
  · intro s
    rw [hok (some ["active", "final"]) s]
    constructor
    · rintro ⟨h1, _, h3⟩
      refine ⟨h1, ?_⟩
      simpa using h3
    · rintro ⟨h1, hs⟩
      rcases hs with rfl | rfl
      · exact ⟨h1, by decide, by decide⟩
      · exact ⟨h1, by decide, by decide⟩
  · intro u
    simp only [createResumableUpload]
    cases hcr : checkResumeHeader_ xhr none with
    | error e =>
      simp only []
      constructor
      · intro hcon
        cases hcon
      · rintro ⟨hA, _⟩
        have := (hok none "active").mpr ⟨hA, by decide, by decide⟩
        rw [hcr] at this
        cases this
    | ok s =>
      obtain ⟨h1, _, h3⟩ := (hok none s).mp hcr
      have hs : s = "active" := by simpa using h3
      subst hs
      simp only []
      cases hu : xhr.getResponseHeader "X-Goog-Upload-URL" with
      | error e =>
        simp only []
        constructor
        · intro hcon
          cases hcon
        · rintro ⟨_, h2⟩
          cases h2
      | ok url =>
        cases url with
        | none =>
          simp [handlerCheck, h1]
        | some v =>
          simp [handlerCheck, h1]
  · intro e h
    simp only [createResumableUpload] at h
    split at h
    · rename_i e' heq
      injection h with h1
      rw [← h1]
      exact herr none e' heq
    · split at h
      · injection h with h1
        exact h1.symm
      · split at h
        · rename_i heq2
          unfold handlerCheck at heq2
          split at heq2
          · cases heq2
          · injection heq2 with heq2
            injection h with h1
            rw [← h1, ← heq2]
        · cases h

theorem resume_header_and_start_handler_checks_witness :
    (createResumableUpload sampleService sampleLocation sampleMappings ⟨10, "", false⟩
        none).handler startOkConnection "" = .ok "session-url" :=
  ((resume_header_and_start_handler_checks startOkConnection "" sampleService sampleLocation
      sampleMappings ⟨10, "", false⟩ none).2.2.2.1 "session-url").mpr ⟨rfl, rfl⟩
